import Mathlib

/-!
# Compliance and Drift Evaluation Engine — formal model

Shallow embedding of the QC engine in `src/main.py` of `mediphys_qc`:
the rule store, the compliance checker (`check_compliance`), the drift
analyzer (`analyze_drift`, delegating its regression to
`scipy.stats.linregress`), and the orchestration loop of `main`.

Real values are modelled as rationals (`ℚ`), exact stand-ins for the
Python floats: every comparison the engine performs is an order
comparison, preserved by the exact model.  Dates reach the core as
comparable timestamps; they are modelled as rational day numbers, and
`pandas`' `(dates - dates.min()).dt.days` as flooring to whole days.
-/

namespace MediphysQC

/-- A tolerance rule, one entry of the nested YAML mapping
`machine_id -> metric -> rule (target, tolerance_abs, unit)`. -/
structure ToleranceRule where
  target : ℚ
  tolerance_abs : ℚ
  unit : String
  deriving DecidableEq, Repr

/-- The loaded configuration `self.rules`: a two-level mapping from
machine id and then metric to a rule, modelled as nested association
lists. -/
def RuleStore : Type := List (String × List (String × ToleranceRule))

instance : DecidableEq RuleStore := by
  unfold RuleStore
  infer_instance

/-- Rule lookup: `machine in self.rules and metric in self.rules[machine]`,
then `self.rules[machine][metric]`. -/
def get_rule (rules : RuleStore) (machine metric : String) : Option ToleranceRule :=
  match List.lookup machine rules with
  | none => none
  | some metrics => List.lookup metric metrics

/-- The compliance verdict attached to one record.  The source renders it
as the strings `"PASS"`, `"FAIL (Dev: ..)"` (deviation to two decimals)
and `"UNKNOWN_CONFIG"`; the model keeps the tag and the exact deviation. -/
inductive ComplianceResult where
  | PASS : ComplianceResult
  | FAIL (deviation : ℚ) : ComplianceResult
  | UNKNOWN_CONFIG : ComplianceResult
  deriving DecidableEq, Repr

/-- Model of `QualityControlEngine.check_compliance`: if no rule exists for
`(machine, metric)` return `UNKNOWN_CONFIG`; otherwise compare
`diff = abs(value - target)` against `tolerance_abs` with strict `>`. -/
def check_compliance (rules : RuleStore) (machine metric : String) (value : ℚ) :
    ComplianceResult :=
  match get_rule rules machine metric with
  | none => ComplianceResult.UNKNOWN_CONFIG
  | some rule =>
      let diff := |value - rule.target|
      if diff > rule.tolerance_abs then ComplianceResult.FAIL diff
      else ComplianceResult.PASS

/-- Minimum of a list of rationals (`dates.min()` on a series; the
default only pads the empty case, which the callers never reach). -/
def minQ (l : List ℚ) : ℚ := l.foldl min (l.headD 0)

/-- Maximum of a list of rationals (`np.amax`). -/
def maxQ (l : List ℚ) : ℚ := l.foldl max (l.headD 0)

/-- Day offsets `(dates - dates.min()).dt.days`: the offset of each timestamp from the
group minimum, truncated to whole days (`Timedelta.days` floors, and the
offsets are nonnegative, so floor and truncation agree). -/
def day_offsets (dates : List ℚ) : List ℚ :=
  dates.map (fun d => ((⌊d - minQ dates⌋ : ℤ) : ℚ))

/-- The slope as `scipy.stats.linregress` computes it: `np.cov(x, y, bias=1)`
centres both arrays and averages the products, then `slope = ssxym / ssxm`. -/
def linregress_slope (x y : List ℚ) : ℚ :=
  let n : ℚ := x.length
  let xmean := x.sum / (x.length : ℚ)
  let ymean := y.sum / (y.length : ℚ)
  let ssxm := (x.map (fun a => (a - xmean) ^ 2)).sum / n
  let ssxym := ((x.zip y).map (fun p => (p.1 - xmean) * (p.2 - ymean))).sum / n
  ssxym / ssxm

/-- Model of `scipy.stats.linregress` restricted to the slope, the only
output `analyze_drift` uses.  scipy raises `ValueError` on empty input and
when all x values are identical (`np.amax(x) == np.amin(x)` with more than
one point); both are modelled as `Except.error` with scipy's message. -/
def linregress (x y : List ℚ) : Except String ℚ :=
  if x.length = 0 ∨ y.length = 0 then
    Except.error "Inputs must not be empty."
  else if maxQ x = minQ x ∧ 1 < x.length then
    Except.error "Cannot calculate a linear regression if all x values are identical"
  else
    Except.ok (linregress_slope x y)

/-- Round a rational to the nearest integer, ties to even — the rounding
Python's fixed-point formatting applies. -/
def round_half_even (q : ℚ) : ℤ :=
  let f := ⌊q⌋
  let r := q - f
  if r < 1/2 then f
  else if 1/2 < r then f + 1
  else if f % 2 = 0 then f else f + 1

/-- Left-pad a fractional part to three digits. -/
def pad3 (n : ℕ) : String :=
  if n < 10 then "00" ++ toString n
  else if n < 100 then "0" ++ toString n
  else toString n

/-- Fixed-point rendering with three decimals, as the .3f format specifier
produces: sign, integer part, three decimals. -/
def fmt3 (q : ℚ) : String :=
  let s := if q < 0 then "-" else ""
  let m := (round_half_even (|q| * 1000)).toNat
  s ++ toString (m / 1000) ++ "." ++ pad3 (m % 1000)

/-- The alert message `analyze_drift` appends: the machine id in square
brackets, the metric, and the slope rendered to three decimals per day. -/
def alert_msg (machine metric : String) (slope : ℚ) : String :=
  "[" ++ machine ++ "] " ++ metric ++ ": Significant Drift detected (Slope: "
    ++ fmt3 slope ++ "/day)"

/-- Model of `QualityControlEngine.analyze_drift`, with the alert it would append to
`self.drift_alerts` made an explicit return value (`none` when the method
just returns) and the uncaught `ValueError` from `linregress` as
`Except.error`. -/
def analyze_drift (dates values : List ℚ) (machine metric : String) :
    Except String (Option String) :=
  if values.length < 5 then Except.ok none
  else
    match linregress (day_offsets dates) values with
    | Except.error e => Except.error e
    | Except.ok slope =>
        if |slope| > 1/10 then Except.ok (some (alert_msg machine metric slope))
        else Except.ok none

/-- One input row of the measurement table: `Date, Machine_ID, Metric, Value`. -/
structure MeasurementRecord where
  date : ℚ
  machine_id : String
  metric : String
  value : ℚ
  deriving DecidableEq, Repr

/-- The compliance loop of `main` (steps 2): one `check_compliance` call per
row, in row order, the statuses collected into the `QC_Status` column.  The
model pairs each record with its status, as `df['QC_Status'] = results`
attaches the list elementwise. -/
def annotated_records (rules : RuleStore) (records : List MeasurementRecord) :
    List (MeasurementRecord × ComplianceResult) :=
  records.map (fun r => (r, check_compliance rules r.machine_id r.metric r.value))

/-- Configuration loading in `QualityControlEngine.__init__`: the YAML file is
read and parsed; only `FileNotFoundError` is handled (`sys.exit(1)`, modelled
as `Except.error`).  The parsed mapping is stored as `self.rules` unchanged —
no rule is validated. -/
def load_config (file : Option RuleStore) : Except String RuleStore :=
  match file with
  | none => Except.error "Configuration file not found"
  | some rules => Except.ok rules

/-- The engine object state: `self.rules`, `self.drift_alerts` and
`self.db_path`. -/
structure QualityControlEngine where
  rules : RuleStore
  drift_alerts : List String
  db_path : String
  deriving DecidableEq

/-- Method-call view of `check_compliance` on the engine state: the method only
reads `self.rules` and assigns nothing, so the state passes through. -/
def check_complianceS (e : QualityControlEngine) (machine metric : String)
    (value : ℚ) : QualityControlEngine × ComplianceResult :=
  (e, check_compliance e.rules machine metric value)

/-- Method-call view of `analyze_drift` on the engine state:
`self.drift_alerts.append(alert_msg)` runs exactly when the alert fires. -/
def analyze_driftS (e : QualityControlEngine) (dates values : List ℚ)
    (machine metric : String) : Except String QualityControlEngine :=
  match analyze_drift dates values machine metric with
  | Except.error err => Except.error err
  | Except.ok none => Except.ok e
  | Except.ok (some msg) =>
      Except.ok { e with drift_alerts := e.drift_alerts ++ [msg] }

/-- The OLS slope exactly as the specification writes it:
`slope = Σ(x_i − x̄)(y_i − ȳ) / Σ(x_i − x̄)²`. -/
def ols_slope_spec (x y : List ℚ) : ℚ :=
  let xbar := x.sum / x.length
  let ybar := y.sum / y.length
  ((x.zip y).map (fun p => (p.1 - xbar) * (p.2 - ybar))).sum /
    (x.map (fun a => (a - xbar) ^ 2)).sum

end MediphysQC

namespace MediphysQC

/-- C1: for every value, target and rule with `tolerance_abs ≥ 0`,
`check_compliance` with an existing rule returns `FAIL` carrying the
deviation `|value - target|` iff `|value - target| > tolerance_abs`, and
`PASS` iff `|value - target| ≤ tolerance_abs`; a deviation exactly equal to
the tolerance passes. -/
theorem compliance_pass_fail_iff (rules : RuleStore) (machine metric : String)
    (rule : ToleranceRule) (value : ℚ)
    (hr : get_rule rules machine metric = some rule)
    (htol : 0 ≤ rule.tolerance_abs) :
    (check_compliance rules machine metric value =
        ComplianceResult.FAIL |value - rule.target| ↔
      rule.tolerance_abs < |value - rule.target|) ∧
    (check_compliance rules machine metric value = ComplianceResult.PASS ↔
      |value - rule.target| ≤ rule.tolerance_abs) ∧
    (|value - rule.target| = rule.tolerance_abs →
      check_compliance rules machine metric value = ComplianceResult.PASS) := by
  unfold check_compliance
  rw [hr]
  by_cases h : rule.tolerance_abs < |value - rule.target|
  · simp [h, not_le.mpr h, ne_of_gt h]
  · simp [h, not_lt.mp h]

/-- Witness for C1 at the spec's Scenario 1 rule: target 100, tolerance 2,
value 104.5 (= 209/2). -/
theorem compliance_pass_fail_iff_witness :
    get_rule [("Linac_1", [("Dose_Output", ⟨100, 2, "Gy"⟩)])] "Linac_1" "Dose_Output" =
        some ⟨100, 2, "Gy"⟩ ∧
      (0 : ℚ) ≤ 2 ∧
      ((check_compliance [("Linac_1", [("Dose_Output", ⟨100, 2, "Gy"⟩)])]
            "Linac_1" "Dose_Output" (209/2) =
          ComplianceResult.FAIL |(209/2 : ℚ) - 100| ↔
        (2 : ℚ) < |(209/2 : ℚ) - 100|) ∧
      (check_compliance [("Linac_1", [("Dose_Output", ⟨100, 2, "Gy"⟩)])]
            "Linac_1" "Dose_Output" (209/2) = ComplianceResult.PASS ↔
        |(209/2 : ℚ) - 100| ≤ 2) ∧
      (|(209/2 : ℚ) - 100| = 2 →
        check_compliance [("Linac_1", [("Dose_Output", ⟨100, 2, "Gy"⟩)])]
            "Linac_1" "Dose_Output" (209/2) = ComplianceResult.PASS)) :=
  ⟨by simp [get_rule, List.lookup], by norm_num,
    compliance_pass_fail_iff [("Linac_1", [("Dose_Output", ⟨100, 2, "Gy"⟩)])]
      "Linac_1" "Dose_Output" ⟨100, 2, "Gy"⟩ (209/2)
      (by simp [get_rule, List.lookup]) (by norm_num)⟩

/-- C2: `check_compliance` returns `UNKNOWN_CONFIG` iff the rule store has no
rule for the `(machine, metric)` pair, regardless of the value, and
`UNKNOWN_CONFIG` is distinct from both `FAIL` and `PASS`. -/
theorem compliance_unknown_config_iff (rules : RuleStore)
    (machine metric : String) (value : ℚ) :
    (check_compliance rules machine metric value = ComplianceResult.UNKNOWN_CONFIG ↔
      get_rule rules machine metric = none) ∧
    (∀ d : ℚ, ComplianceResult.UNKNOWN_CONFIG ≠ ComplianceResult.FAIL d) ∧
    ComplianceResult.UNKNOWN_CONFIG ≠ ComplianceResult.PASS := by
  refine ⟨?_, by simp, by simp⟩
  unfold check_compliance
  cases hr : get_rule rules machine metric with
  | none => simp
  | some rule =>
      by_cases h : rule.tolerance_abs < |value - rule.target|
      · simp [h]
      · simp [h]

/-- Witness for C2 at the spec's Scenario 3: no rule configured for
`(MachineX, MetricY)`. -/
theorem compliance_unknown_config_iff_witness :
    (check_compliance [] "MachineX" "MetricY" 0 = ComplianceResult.UNKNOWN_CONFIG ↔
      get_rule [] "MachineX" "MetricY" = none) ∧
    (∀ d : ℚ, ComplianceResult.UNKNOWN_CONFIG ≠ ComplianceResult.FAIL d) ∧
    ComplianceResult.UNKNOWN_CONFIG ≠ ComplianceResult.PASS :=
  compliance_unknown_config_iff [] "MachineX" "MetricY" 0

/-- C10: if a loaded rule has `tolerance_abs < 0`, `check_compliance`
returns `FAIL` for every value — the deviation `|value - target| ≥ 0` always
exceeds a negative tolerance — including `FAIL 0` at `value = target`. -/
theorem compliance_negative_tolerance_always_fails (rules : RuleStore)
    (machine metric : String) (rule : ToleranceRule)
    (hr : get_rule rules machine metric = some rule)
    (hneg : rule.tolerance_abs < 0) :
    (∀ value : ℚ, check_compliance rules machine metric value =
      ComplianceResult.FAIL |value - rule.target|) ∧
    check_compliance rules machine metric rule.target =
      ComplianceResult.FAIL 0 := by
  have hall : ∀ value : ℚ, check_compliance rules machine metric value =
      ComplianceResult.FAIL |value - rule.target| := by
    intro value
    unfold check_compliance
    rw [hr]
    have : rule.tolerance_abs < |value - rule.target| :=
      lt_of_lt_of_le hneg (abs_nonneg _)
    simp [this]
  refine ⟨hall, ?_⟩
  have := hall rule.target
  simpa using this

/-- Witness for C10: rule with target 100 and tolerance −1; the on-target
value 100 still fails. -/
theorem compliance_negative_tolerance_always_fails_witness :
    get_rule [("MachineA", [("MetricB", ⟨100, -1, "u"⟩)])] "MachineA" "MetricB" =
        some ⟨100, -1, "u"⟩ ∧
      ((⟨100, -1, "u"⟩ : ToleranceRule).tolerance_abs < 0) ∧
      ((∀ value : ℚ, check_compliance [("MachineA", [("MetricB", ⟨100, -1, "u"⟩)])]
          "MachineA" "MetricB" value =
          ComplianceResult.FAIL |value - (⟨100, -1, "u"⟩ : ToleranceRule).target|) ∧
        check_compliance [("MachineA", [("MetricB", ⟨100, -1, "u"⟩)])]
          "MachineA" "MetricB" (⟨100, -1, "u"⟩ : ToleranceRule).target =
          ComplianceResult.FAIL 0) :=
  ⟨by simp [get_rule, List.lookup], by norm_num,
    compliance_negative_tolerance_always_fails
      [("MachineA", [("MetricB", ⟨100, -1, "u"⟩)])] "MachineA" "MetricB"
      ⟨100, -1, "u"⟩ (by simp [get_rule, List.lookup]) (by norm_num)⟩

/-- C3: for fewer than 5 records, `analyze_drift` produces no alert and does
not fail, whatever the dates and values. -/
theorem drift_below_min_count_returns_none (dates values : List ℚ)
    (machine metric : String) (h : values.length < 5) :
    analyze_drift dates values machine metric = Except.ok none := by
  unfold analyze_drift
  simp [h]

/-- Witness for C3 at the spec's Scenario 6: exactly 4 records spanning a
strong trend still yield no analysis. -/
theorem drift_below_min_count_returns_none_witness :
    ([0, 10, 20, 30] : List ℚ).length < 5 ∧
    analyze_drift [0, 1, 2, 3] [0, 10, 20, 30] "CT_Scanner_A" "Water_HU" =
      Except.ok none :=
  ⟨by norm_num,
    drift_below_min_count_returns_none [0, 1, 2, 3] [0, 10, 20, 30]
      "CT_Scanner_A" "Water_HU" (by norm_num)⟩

/-- C4 (code behavior at the failing input): a group of 5 records all on the
same day makes `scipy.stats.linregress` raise
`ValueError("Cannot calculate a linear regression if all x values are
identical")`, which `analyze_drift` does not catch — the call errors instead
of returning none. -/
theorem drift_same_day_raises :
    analyze_drift [0, 0, 0, 0, 0] [1, 2, 3, 4, 5] "CT_Scanner_A" "Water_HU" =
      Except.error
        "Cannot calculate a linear regression if all x values are identical" := by
  norm_num [analyze_drift, linregress, day_offsets, minQ, maxQ, List.foldl]

/-- The centred-average slope scipy computes coincides with the textbook OLS
quotient: dividing covariance and variance by the same sample size cancels. -/
theorem linregress_slope_eq_ols (x y : List ℚ) (hx : x ≠ []) :
    linregress_slope x y = ols_slope_spec x y := by
  have hn : (x.length : ℚ) ≠ 0 :=
    Nat.cast_ne_zero.mpr (List.length_pos.mpr hx).ne'
  simp only [linregress_slope, ols_slope_spec]
  rw [div_div_div_comm, div_self hn, div_one]

/-- C5: for a group of at least 5 records not all on the same day, the slope
`analyze_drift` acts on is the ordinary-least-squares slope
`Σ(x_i − x̄)(y_i − ȳ) / Σ(x_i − x̄)²`, with `x_i` the whole-day offset of
record `i` from the group's minimum date; equal dates share an x-coordinate. -/
theorem drift_slope_is_ols (dates values : List ℚ) (machine metric : String)
    (h5 : 5 ≤ values.length) (hlen : dates.length = values.length)
    (hvar : ¬ maxQ (day_offsets dates) = minQ (day_offsets dates)) :
    linregress (day_offsets dates) values =
      Except.ok (ols_slope_spec (day_offsets dates) values) ∧
    analyze_drift dates values machine metric =
      (if |ols_slope_spec (day_offsets dates) values| > 1/10 then
        Except.ok (some (alert_msg machine metric
          (ols_slope_spec (day_offsets dates) values)))
      else Except.ok none) ∧
    (∀ i j : ℕ, dates[i]? = dates[j]? →
      (day_offsets dates)[i]? = (day_offsets dates)[j]?) := by
  have hxlen : (day_offsets dates).length = values.length := by
    simpa [day_offsets] using hlen
  have hxne : day_offsets dates ≠ [] := by
    intro hnil
    rw [hnil] at hxlen
    simp at hxlen
    omega
  have hlr : linregress (day_offsets dates) values =
      Except.ok (ols_slope_spec (day_offsets dates) values) := by
    unfold linregress
    rw [if_neg, if_neg]
    · rw [linregress_slope_eq_ols _ _ hxne]
    · intro hc
      exact hvar hc.1
    · push_neg
      constructor
      · omega
      · intro hy
        omega
  refine ⟨hlr, ?_, ?_⟩
  · unfold analyze_drift
    rw [if_neg (by omega), hlr]
  · intro i j hij
    simp only [day_offsets, List.getElem?_map, hij]

/-- C6: with at least 5 records and a well-defined fitted slope `s`,
`analyze_drift` produces an alert iff `|s| > 0.1`, none when `|s| ≤ 0.1`,
and the alert message names the machine, the metric and the slope magnitude
(rendered to three decimals). -/
theorem drift_alert_iff_threshold (dates values : List ℚ)
    (machine metric : String) (s : ℚ)
    (h5 : 5 ≤ values.length)
    (hlr : linregress (day_offsets dates) values = Except.ok s) :
    (analyze_drift dates values machine metric =
        Except.ok (some (alert_msg machine metric s)) ↔ 1/10 < |s|) ∧
    (analyze_drift dates values machine metric = Except.ok none ↔ |s| ≤ 1/10) ∧
    machine.data <:+: (alert_msg machine metric s).data ∧
    metric.data <:+: (alert_msg machine metric s).data ∧
    (fmt3 s).data <:+: (alert_msg machine metric s).data := by
  have hmsg : (alert_msg machine metric s).data =
      "[".data ++ machine.data ++ ("] " ++ metric ++
        ": Significant Drift detected (Slope: " ++ fmt3 s ++ "/day)").data := by
    simp [alert_msg, String.data_append, List.append_assoc]
  refine ⟨?_, ?_, ?_, ?_, ?_⟩
  · unfold analyze_drift
    rw [if_neg (by omega), hlr]
    by_cases ht : |s| > 1/10
    · simp [ht]
    · simp [ht]
  · unfold analyze_drift
    rw [if_neg (by omega), hlr]
    by_cases ht : |s| > 1/10
    · simp [ht]
    · simp [ht]
  · rw [hmsg]
    exact ⟨"[".data, _, rfl⟩
  · have : (alert_msg machine metric s).data =
        ("[" ++ machine ++ "] ").data ++ metric.data ++
          (": Significant Drift detected (Slope: " ++ fmt3 s ++ "/day)").data := by
      simp [alert_msg, String.data_append, List.append_assoc]
    rw [this]
    exact List.infix_append _ _ _
  · have : (alert_msg machine metric s).data =
        ("[" ++ machine ++ "] " ++ metric ++
            ": Significant Drift detected (Slope: ").data ++ (fmt3 s).data ++
          "/day)".data := by
      simp [alert_msg, String.data_append, List.append_assoc]
    rw [this]
    exact List.infix_append _ _ _

/-- Witness for C5 on the drifting CT group: five day-spaced records with a
unit slope. -/
theorem drift_slope_is_ols_witness :
    5 ≤ ([0, 1, 2, 3, 4] : List ℚ).length ∧
    ([0, 1, 2, 3, 4] : List ℚ).length = ([0, 1, 2, 3, 4] : List ℚ).length ∧
    ¬ maxQ (day_offsets [0, 1, 2, 3, 4]) = minQ (day_offsets [0, 1, 2, 3, 4]) ∧
    (linregress (day_offsets [0, 1, 2, 3, 4]) [0, 1, 2, 3, 4] =
        Except.ok (ols_slope_spec (day_offsets [0, 1, 2, 3, 4]) [0, 1, 2, 3, 4]) ∧
      analyze_drift [0, 1, 2, 3, 4] [0, 1, 2, 3, 4] "CT_Scanner_A" "Water_HU" =
        (if |ols_slope_spec (day_offsets [0, 1, 2, 3, 4]) [0, 1, 2, 3, 4]| > 1/10 then
          Except.ok (some (alert_msg "CT_Scanner_A" "Water_HU"
            (ols_slope_spec (day_offsets [0, 1, 2, 3, 4]) [0, 1, 2, 3, 4])))
        else Except.ok none) ∧
      (∀ i j : ℕ, ([0, 1, 2, 3, 4] : List ℚ)[i]? = ([0, 1, 2, 3, 4] : List ℚ)[j]? →
        (day_offsets [0, 1, 2, 3, 4])[i]? = (day_offsets [0, 1, 2, 3, 4])[j]?)) :=
  ⟨by norm_num, rfl,
    by norm_num [day_offsets, minQ, maxQ, List.foldl],
    drift_slope_is_ols [0, 1, 2, 3, 4] [0, 1, 2, 3, 4] "CT_Scanner_A" "Water_HU"
      (by norm_num) rfl (by norm_num [day_offsets, minQ, maxQ, List.foldl])⟩

/-- Witness for C6 on the same group: the fitted slope is 1 per day, above
the 0.1 threshold, so the alert is produced. -/
theorem drift_alert_iff_threshold_witness :
    5 ≤ ([0, 1, 2, 3, 4] : List ℚ).length ∧
    linregress (day_offsets [0, 1, 2, 3, 4]) [0, 1, 2, 3, 4] = Except.ok 1 ∧
    ((analyze_drift [0, 1, 2, 3, 4] [0, 1, 2, 3, 4] "CT_Scanner_A" "Water_HU" =
        Except.ok (some (alert_msg "CT_Scanner_A" "Water_HU" 1)) ↔ 1/10 < |(1 : ℚ)|) ∧
      (analyze_drift [0, 1, 2, 3, 4] [0, 1, 2, 3, 4] "CT_Scanner_A" "Water_HU" =
        Except.ok none ↔ |(1 : ℚ)| ≤ 1/10) ∧
      ("CT_Scanner_A".data <:+: (alert_msg "CT_Scanner_A" "Water_HU" 1).data) ∧
      ("Water_HU".data <:+: (alert_msg "CT_Scanner_A" "Water_HU" 1).data) ∧
      ((fmt3 1).data <:+: (alert_msg "CT_Scanner_A" "Water_HU" 1).data)) :=
  ⟨by norm_num,
    by norm_num [linregress, linregress_slope, day_offsets, minQ, maxQ,
      List.foldl, List.zip, List.zipWith],
    drift_alert_iff_threshold [0, 1, 2, 3, 4] [0, 1, 2, 3, 4]
      "CT_Scanner_A" "Water_HU" 1 (by norm_num)
      (by norm_num [linregress, linregress_slope, day_offsets, minQ, maxQ,
        List.foldl, List.zip, List.zipWith])⟩

/-- C7 (code behavior at the failing input): a configuration holding a rule
with `tolerance_abs = -1` loads without any error — `__init__` validates
nothing — and the rule is then applied per record: `check_compliance`
returns `FAIL` with deviation 0 for the on-target value instead of the run
having aborted at load time. -/
theorem invalid_rule_config_loads :
    load_config (some [("M", [("X", ⟨100, -1, "u"⟩)])]) =
      Except.ok [("M", [("X", ⟨100, -1, "u"⟩)])] ∧
    check_compliance [("M", [("X", ⟨100, -1, "u"⟩)])] "M" "X" 100 =
      ComplianceResult.FAIL 0 := by
  refine ⟨rfl, ?_⟩
  simp only [check_compliance, get_rule, List.lookup]
  norm_num

/-- C8: the compliance loop of `main` attaches exactly one result to every
input record, in the records' original order, whether or not a rule exists:
projecting the annotations away returns the input list, the lengths agree,
every attached result is the `check_compliance` verdict of its own record,
and the i-th annotated row is the i-th input row with its verdict. -/
theorem orchestrator_one_result_per_record (rules : RuleStore)
    (records : List MeasurementRecord) :
    (annotated_records rules records).map Prod.fst = records ∧
    (annotated_records rules records).length = records.length ∧
    (∀ p, p ∈ annotated_records rules records →
      p.2 = check_compliance rules p.1.machine_id p.1.metric p.1.value) ∧
    (∀ i : ℕ, (annotated_records rules records)[i]? =
      (records[i]?).map
        (fun r => (r, check_compliance rules r.machine_id r.metric r.value))) := by
  refine ⟨?_, ?_, ?_, ?_⟩
  · rw [annotated_records, List.map_map]
    exact List.map_id records
  · simp [annotated_records]
  · intro p hp
    simp only [annotated_records, List.mem_map] at hp
    obtain ⟨r, _, rfl⟩ := hp
    rfl
  · intro i
    simp [annotated_records, List.getElem?_map]

/-- Witness for C8: a one-record input with no configured rule still gets
its (single) `UNKNOWN_CONFIG` annotation, in place. -/
theorem orchestrator_one_result_per_record_witness :
    (annotated_records [] [⟨0, "MachineX", "MetricY", 7⟩]).map Prod.fst =
        [⟨0, "MachineX", "MetricY", 7⟩] ∧
      ((⟨0, "MachineX", "MetricY", 7⟩ : MeasurementRecord),
          ComplianceResult.UNKNOWN_CONFIG) ∈
        annotated_records [] [⟨0, "MachineX", "MetricY", 7⟩] ∧
      ((⟨0, "MachineX", "MetricY", 7⟩ : MeasurementRecord),
          ComplianceResult.UNKNOWN_CONFIG).2 =
        check_compliance [] "MachineX" "MetricY" 7 :=
  ⟨(orchestrator_one_result_per_record [] [⟨0, "MachineX", "MetricY", 7⟩]).1,
    by simp [annotated_records, check_compliance, get_rule, List.lookup],
    (orchestrator_one_result_per_record [] [⟨0, "MachineX", "MetricY", 7⟩]).2.2.1 _
      (by simp [annotated_records, check_compliance, get_rule, List.lookup])⟩

/-- C9 counterexample: the drift analyzer is not free of shared-state
mutation — on a drifting group it appends its alert to the engine's
`drift_alerts` accumulator, leaving the engine in a different state. -/
theorem drift_analyzer_mutates_state :
    analyze_driftS ⟨[("M", [("X", ⟨0, 1, "u"⟩)])], [], "qc_history.db"⟩
        [0, 1, 2, 3, 4] [0, 1, 2, 3, 4] "M" "X" =
      Except.ok ⟨[("M", [("X", ⟨0, 1, "u"⟩)])], [alert_msg "M" "X" 1],
        "qc_history.db"⟩ ∧
    (⟨[("M", [("X", ⟨0, 1, "u"⟩)])], [alert_msg "M" "X" 1], "qc_history.db"⟩ :
        QualityControlEngine) ≠
      ⟨[("M", [("X", ⟨0, 1, "u"⟩)])], [], "qc_history.db"⟩ := by
  constructor
  · have hd : analyze_drift [0, 1, 2, 3, 4] [0, 1, 2, 3, 4] "M" "X" =
        Except.ok (some (alert_msg "M" "X" 1)) := by
      norm_num [analyze_drift, linregress, linregress_slope, day_offsets,
        minQ, maxQ, List.foldl, List.zip, List.zipWith]
    unfold analyze_driftS
    rw [hd]
    rfl
  · simp

/-- C9, amended: both evaluators are deterministic functions of their
inputs; `check_compliance` leaves the engine untouched, while
`analyze_drift` leaves `rules` and `db_path` untouched and either leaves
`drift_alerts` unchanged (no alert) or appends exactly the produced alert. -/
theorem evaluators_deterministic_frame (e : QualityControlEngine)
    (machine metric : String) (value : ℚ) (dates values : List ℚ) :
    (check_complianceS e machine metric value).1 = e ∧
    (check_complianceS e machine metric value).2 =
      check_compliance e.rules machine metric value ∧
    (∀ e2, analyze_driftS e dates values machine metric = Except.ok e2 →
      e2.rules = e.rules ∧ e2.db_path = e.db_path ∧
      ((analyze_drift dates values machine metric = Except.ok none ∧
          e2.drift_alerts = e.drift_alerts) ∨
        (∃ msg, analyze_drift dates values machine metric = Except.ok (some msg) ∧
          e2.drift_alerts = e.drift_alerts ++ [msg]))) := by
  refine ⟨rfl, rfl, ?_⟩
  intro e2 h2
  unfold analyze_driftS at h2
  cases hd : analyze_drift dates values machine metric with
  | error err =>
      rw [hd] at h2
      exact absurd h2 (by simp)
  | ok o =>
      rw [hd] at h2
      cases o with
      | none =>
          simp only [Except.ok.injEq] at h2
          subst h2
          exact ⟨rfl, rfl, Or.inl ⟨rfl, rfl⟩⟩
      | some msg =>
          simp only [Except.ok.injEq] at h2
          subst h2
          exact ⟨rfl, rfl, Or.inr ⟨msg, rfl, rfl⟩⟩

/-- Witness for the amended C9, on the same drifting group as the
counterexample. -/
theorem evaluators_deterministic_frame_witness :
    analyze_driftS ⟨[("M", [("X", ⟨0, 1, "u"⟩)])], [], "qc_history.db"⟩
        [0, 1, 2, 3, 4] [0, 1, 2, 3, 4] "M" "X" =
      Except.ok ⟨[("M", [("X", ⟨0, 1, "u"⟩)])], [alert_msg "M" "X" 1],
        "qc_history.db"⟩ ∧
    ((⟨[("M", [("X", ⟨0, 1, "u"⟩)])], [alert_msg "M" "X" 1], "qc_history.db"⟩ :
          QualityControlEngine).rules =
        (⟨[("M", [("X", ⟨0, 1, "u"⟩)])], [], "qc_history.db"⟩ :
          QualityControlEngine).rules ∧
      (⟨[("M", [("X", ⟨0, 1, "u"⟩)])], [alert_msg "M" "X" 1], "qc_history.db"⟩ :
          QualityControlEngine).db_path =
        (⟨[("M", [("X", ⟨0, 1, "u"⟩)])], [], "qc_history.db"⟩ :
          QualityControlEngine).db_path ∧
      ((analyze_drift [0, 1, 2, 3, 4] [0, 1, 2, 3, 4] "M" "X" = Except.ok none ∧
          (⟨[("M", [("X", ⟨0, 1, "u"⟩)])], [alert_msg "M" "X" 1],
              "qc_history.db"⟩ : QualityControlEngine).drift_alerts =
            (⟨[("M", [("X", ⟨0, 1, "u"⟩)])], [], "qc_history.db"⟩ :
              QualityControlEngine).drift_alerts) ∨
        (∃ msg, analyze_drift [0, 1, 2, 3, 4] [0, 1, 2, 3, 4] "M" "X" =
            Except.ok (some msg) ∧
          (⟨[("M", [("X", ⟨0, 1, "u"⟩)])], [alert_msg "M" "X" 1],
              "qc_history.db"⟩ : QualityControlEngine).drift_alerts =
            (⟨[("M", [("X", ⟨0, 1, "u"⟩)])], [], "qc_history.db"⟩ :
              QualityControlEngine).drift_alerts ++ [msg]))) := by
  have hs : analyze_driftS ⟨[("M", [("X", ⟨0, 1, "u"⟩)])], [], "qc_history.db"⟩
      [0, 1, 2, 3, 4] [0, 1, 2, 3, 4] "M" "X" =
      Except.ok ⟨[("M", [("X", ⟨0, 1, "u"⟩)])], [alert_msg "M" "X" 1],
        "qc_history.db"⟩ := by
    have hd : analyze_drift [0, 1, 2, 3, 4] [0, 1, 2, 3, 4] "M" "X" =
        Except.ok (some (alert_msg "M" "X" 1)) := by
      norm_num [analyze_drift, linregress, linregress_slope, day_offsets,
        minQ, maxQ, List.foldl, List.zip, List.zipWith]
    unfold analyze_driftS
    rw [hd]
    rfl
  exact ⟨hs,
    (evaluators_deterministic_frame
        ⟨[("M", [("X", ⟨0, 1, "u"⟩)])], [], "qc_history.db"⟩ "M" "X" 0
        [0, 1, 2, 3, 4] [0, 1, 2, 3, 4]).2.2 _ hs⟩

end MediphysQC
